import Mathlib

/-!
# bdlpcre::RegEx: matcher lifecycle and match-result projection

A shallow embedding of `groups/bdl/bdlpcre/bdlpcre_regex.cpp`.

* Pointers and engine handles are natural numbers, `0` being the null pointer.
* `int` values are `Int`; `size_t` values are `Nat`, with the one `size_t`
  subtraction of the source taken modulo `2 ^ sizeBits`.
* A `BSLS_ASSERT` that fails makes the embedded function return `none`.
* The regular-expression engine is outside the component: what one engine call
  hands back (a handle, a return value, the output vector) is an explicit
  argument of the embedded function that makes the call.
-/

namespace bdlpcre

/-! ## Constants -/

/-- Return value `k_SUCCESS` of the anonymous enum of the component. -/
def k_SUCCESS : Int := 0

/-- Return value `k_DEPTHLIMITFAILURE` of the anonymous enum of the component. -/
def k_DEPTHLIMITFAILURE : Int := 1

/-- Return value `k_FAILURE` of the anonymous enum of the component. -/
def k_FAILURE : Int := -1

/-- Engine interface (`pcre2.h`), as far as the component uses it and the
source leaves it open: the width of `PCRE2_SIZE` (that is `size_t`), the error
code the engine returns when its match limit is hit, and the two read-only
queries on a compiled pattern.  `pcre2_pattern_info` gives the return value of
the call and the capture count it writes through its out-pointer. -/
structure Pcre2 where
  sizeBits : Nat
  PCRE2_ERROR_MATCHLIMIT : Int
  pcre2_pattern_info : Nat → Int × Int
  pcre2_substring_number_from_name : Nat → String → Int

/-- Subtraction of two `size_t` values, `a - b`, modulo `2 ^ sizeBits`. -/
def Pcre2.sub (P : Pcre2) (a b : Nat) : Nat :=
  (a + (2 ^ P.sizeBits - b % 2 ^ P.sizeBits)) % 2 ^ P.sizeBits

/-- The engine's marker for an unset offset: the all-ones `size_t` value. -/
def Pcre2.UNSET (P : Pcre2) : Nat := 2 ^ P.sizeBits - 1

/-- Conversion `static_cast<int>(n)` of a `size_t` to a 32-bit `int`: the
value itself when it fits, and otherwise the low 32 bits read as a
two's-complement number, as compilers do. -/
def static_cast_int (n : Nat) : Int :=
  if n % 2 ^ 32 < 2 ^ 31 then ((n % 2 ^ 32 : Nat) : Int) else ((n % 2 ^ 32 : Nat) : Int) - 2 ^ 32

/-! ## Data model -/

/-- Data members of `class RegEx`, in the order of the constructor's
initialiser list. -/
structure RegEx where
  d_flags : Int
  d_pattern : String
  d_pcre2Context_p : Nat
  d_compileContext_p : Nat
  d_matchContext_p : Nat
  d_patternCode_p : Nat
  d_matchData_p : Nat
  d_depthLimit : Int
  d_allocator_p : Nat
deriving DecidableEq

/-- Modelled from the spec: the inline accessor `isPrepared` is declared in
`bdlpcre_regex.h`, which is missing; the spec calls the prepared predicate the
joint nullity check of the compiled-pattern handle and the output-buffer
handle. -/
def RegEx.isPrepared (s : RegEx) : Bool :=
  s.d_patternCode_p != 0 && s.d_matchData_p != 0

/-- Modelled from the spec: `bslma::Default::allocator` is missing; the
allocation capability is the one supplied by the caller, the process default
standing in for a null argument. -/
def Default_allocator (basicAllocator defaultAllocator : Nat) : Nat :=
  if basicAllocator != 0 then basicAllocator else defaultAllocator

/-- Modelled from the spec: `bslstl::StringRef` is missing; a view is an
address into the subject together with the `int` length handed to it. -/
structure StringRef where
  d_begin : Nat
  d_length : Int
deriving DecidableEq

/-- Modelled from the spec: `StringRef::assign(data, length)` and the
two-argument constructor, a view of `length` bytes starting at `data`. -/
def StringRef.assign (data : Nat) (length : Int) : StringRef :=
  { d_begin := data, d_length := length }

/-- Modelled from the spec: `StringRef::reset()` and the default constructor,
the explicit empty/absent view. -/
def StringRef.reset : StringRef :=
  { d_begin := 0, d_length := 0 }

/-- Modelled from the spec: `bsl::vector::resize(n)` is missing; the sequence
is resized to exactly `n` elements, keeping the leading ones and filling with
value-initialised elements `d`. -/
def vector_resize {α : Type} (v : List α) (n : Nat) (d : α) : List α :=
  v.take n ++ List.replicate (n - v.length) d

/-- What the engine hands back during one call of `prepare`: the results of
`pcre2_compile` (`patternCode`, null on failure, and the error code and
offset), of `pcre2_get_error_message` (`messageResult` and the buffer it
fills) and of `pcre2_match_data_create_from_pattern` (`matchData`). -/
structure CompileOutcome where
  patternCode : Nat
  errorCodeFromPcre2 : Int
  errorOffsetFromPcre2 : Nat
  messageResult : Int
  errorBuffer : String
  matchData : Nat

/-- Result of `prepare`: the returned status, the matcher afterwards, and the
two out-parameters (`none` for a null pointer). -/
structure PrepareResult where
  status : Int
  state : RegEx
  errorMessage : Option String
  errorOffset : Option Nat

/-- What the engine hands back for one `pcre2_match` call: its return value
and the match data block afterwards, read through
`pcre2_get_ovector_pointer` (`ovector`, indexed as the flat array) and
`pcre2_get_ovector_count` (`ovectorCount`, the number of pairs). -/
structure MatchOutcome where
  returnValue : Int
  ovector : Nat → Nat
  ovectorCount : Nat

/-! ## Creators and manipulators -/

/-- Constructor `RegEx::RegEx(basicAllocator)`.  `depthLimit` is the value of
`RegEx::defaultDepthLimit()` at the time of the call; the three contexts are
what the engine's `..._create` calls return, each asserted non-null. -/
def RegEx.construct (basicAllocator defaultAllocator : Nat) (depthLimit : Int)
    (pcre2Context compileContext matchContext : Nat) : Option RegEx :=
  if pcre2Context == 0 then none
  else if compileContext == 0 then none
  else if matchContext == 0 then none
  else some
    { d_flags := 0
      d_pattern := ""
      d_pcre2Context_p := pcre2Context
      d_compileContext_p := compileContext
      d_matchContext_p := matchContext
      d_patternCode_p := 0
      d_matchData_p := 0
      d_depthLimit := depthLimit
      d_allocator_p := Default_allocator basicAllocator defaultAllocator }

/-- Manipulator `RegEx::clear()`.  The two `..._free` calls act on the engine's
heap, which is not part of the matcher. -/
def RegEx.clear (s : RegEx) : RegEx :=
  if s.isPrepared then
    { s with d_patternCode_p := 0, d_matchData_p := 0, d_flags := 0, d_pattern := "" }
  else s

/-- Manipulator `RegEx::prepare(errorMessage, errorOffset, pattern, flags)`.
`pattern` is a string, so `BSLS_ASSERT(pattern)` holds; `o` is what the engine
hands back.  The pattern and the flags are stored right after the `clear`, and
once more before the successful return.  Freeing the compiled pattern when no
output buffer could be created acts on the engine's heap only. -/
def RegEx.prepare (s : RegEx) (errorMessage : Option String) (errorOffset : Option Nat)
    (pattern : String) (flags : Int) (o : CompileOutcome) : PrepareResult :=
  let s1 := s.clear
  let s2 := { s1 with d_pattern := pattern, d_flags := flags }
  if o.patternCode == 0 then
    { status := k_FAILURE
      state := s2
      errorMessage := errorMessage.map fun _ =>
        if o.messageResult > 0 then o.errorBuffer.take o.messageResult.toNat else ""
      errorOffset := errorOffset.map fun _ => o.errorOffsetFromPcre2 }
  else if o.matchData == 0 then
    { status := k_FAILURE
      state := s2
      errorMessage := errorMessage.map fun _ => "Out of memory."
      errorOffset := errorOffset.map fun _ => 0 }
  else
    { status := k_SUCCESS
      state := { s2 with d_pattern := pattern, d_patternCode_p := o.patternCode,
                         d_matchData_p := o.matchData, d_flags := flags }
      errorMessage := errorMessage
      errorOffset := errorOffset }

/-! ## Accessors -/

/-- Private accessor `RegEx::privateMatch(subject, subjectLength, subjectOffset)`;
`o` is what the `pcre2_match` call hands back.  The three assertions come
first, in the order of the source; putting the empty string in place of a
null subject changes only what the engine is handed. -/
def RegEx.privateMatch (P : Pcre2) (s : RegEx) (subject subjectLength subjectOffset : Nat)
    (o : MatchOutcome) : Option Int :=
  if !(subject != 0 || subjectLength == 0) then none
  else if !(decide (subjectOffset ≤ subjectLength)) then none
  else if !s.isPrepared then none
  else if P.PCRE2_ERROR_MATCHLIMIT == o.returnValue then some k_DEPTHLIMITFAILURE
  else if 0 > o.returnValue then some k_FAILURE
  else some k_SUCCESS

/-- Accessor `RegEx::match(subject, subjectLength, subjectOffset)`, the
presence-only overload. -/
def RegEx.match_ (P : Pcre2) (s : RegEx) (subject subjectLength subjectOffset : Nat)
    (o : MatchOutcome) : Option Int :=
  s.privateMatch P subject subjectLength subjectOffset o

/-- Accessor `RegEx::match(bsl::pair<size_t, size_t> *result, ...)`; `result`
is the caller's pair before the call, the second component of the value
returned is the pair afterwards. -/
def RegEx.match_pair (P : Pcre2) (s : RegEx) (result : Nat × Nat)
    (subject subjectLength subjectOffset : Nat) (o : MatchOutcome) :
    Option (Int × (Nat × Nat)) :=
  match s.privateMatch P subject subjectLength subjectOffset o with
  | none => none
  | some matchResult =>
    if k_SUCCESS != matchResult then some (matchResult, result)
    else if !(decide (1 ≤ o.ovectorCount)) then none
    else
      let offset := o.ovector 0
      let length := P.sub (o.ovector 1) offset
      some (k_SUCCESS, (offset, length))

/-- Accessor `RegEx::match(bslstl::StringRef *result, ...)`. -/
def RegEx.match_StringRef (P : Pcre2) (s : RegEx) (result : StringRef)
    (subject subjectLength subjectOffset : Nat) (o : MatchOutcome) :
    Option (Int × StringRef) :=
  match s.privateMatch P subject subjectLength subjectOffset o with
  | none => none
  | some matchResult =>
    if k_SUCCESS != matchResult then some (matchResult, result)
    else if !(decide (1 ≤ o.ovectorCount)) then none
    else
      let offset := o.ovector 0
      let length := P.sub (o.ovector 1) offset
      if length != 0 then
        some (k_SUCCESS, StringRef.assign (subject + offset) (static_cast_int length))
      else
        some (k_SUCCESS, StringRef.reset)

/-- Loop `for (size_t i = 0, j = 0; i < ovectorCount; ++i, j += 2)` of the
vector-of-pairs overload, started at `(i, j)` with at most `fuel` iterations
left.  The counters are natural numbers: `ovectorCount` is an `unsigned int`
and the array of `2 * ovectorCount` entries lies in memory, so neither counter
wraps. -/
def RegEx.match_vector_pair_loop (P : Pcre2) (o : MatchOutcome) :
    Nat → Nat → Nat → List (Nat × Nat) → List (Nat × Nat)
  | 0, _, _, result => result
  | fuel + 1, i, j, result =>
    if i < o.ovectorCount then
      let offset := o.ovector j
      let length := P.sub (o.ovector (j + 1)) offset
      RegEx.match_vector_pair_loop P o fuel (i + 1) (j + 2) (result.set i (offset, length))
    else result

/-- Accessor `RegEx::match(bsl::vector<bsl::pair<size_t, size_t> > *result, ...)`;
the loop makes exactly `ovectorCount` iterations. -/
def RegEx.match_vector_pair (P : Pcre2) (s : RegEx) (result : List (Nat × Nat))
    (subject subjectLength subjectOffset : Nat) (o : MatchOutcome) :
    Option (Int × List (Nat × Nat)) :=
  match s.privateMatch P subject subjectLength subjectOffset o with
  | none => none
  | some matchResult =>
    if k_SUCCESS != matchResult then some (matchResult, result)
    else
      some (k_SUCCESS,
        RegEx.match_vector_pair_loop P o o.ovectorCount 0 0
          (vector_resize result o.ovectorCount (0, 0)))

/-- Loop of the vector-of-views overload, started at `(i, j)` with at most
`fuel` iterations left. -/
def RegEx.match_vector_StringRef_loop (P : Pcre2) (subject : Nat) (o : MatchOutcome) :
    Nat → Nat → Nat → List StringRef → List StringRef
  | 0, _, _, result => result
  | fuel + 1, i, j, result =>
    if i < o.ovectorCount then
      let offset := o.ovector j
      let length := P.sub (o.ovector (j + 1)) offset
      if length != 0 then
        RegEx.match_vector_StringRef_loop P subject o fuel (i + 1) (j + 2)
          (result.set i (StringRef.assign (subject + offset) (static_cast_int length)))
      else
        RegEx.match_vector_StringRef_loop P subject o fuel (i + 1) (j + 2)
          (result.set i StringRef.reset)
    else result

/-- Accessor `RegEx::match(bsl::vector<bslstl::StringRef> *result, ...)`. -/
def RegEx.match_vector_StringRef (P : Pcre2) (s : RegEx) (result : List StringRef)
    (subject subjectLength subjectOffset : Nat) (o : MatchOutcome) :
    Option (Int × List StringRef) :=
  match s.privateMatch P subject subjectLength subjectOffset o with
  | none => none
  | some matchResult =>
    if k_SUCCESS != matchResult then some (matchResult, result)
    else
      some (k_SUCCESS,
        RegEx.match_vector_StringRef_loop P subject o o.ovectorCount 0 0
          (vector_resize result o.ovectorCount StringRef.reset))

/-- Accessor `RegEx::numSubpatterns()`. -/
def RegEx.numSubpatterns (P : Pcre2) (s : RegEx) : Option Int :=
  if !s.isPrepared then none
  else
    let info := P.pcre2_pattern_info s.d_patternCode_p
    if !(0 == info.1) then none
    else some info.2

/-- Accessor `RegEx::subpatternIndex(name)`; the right operand of `&&` is only
evaluated when `0 < index`. -/
def RegEx.subpatternIndex (P : Pcre2) (s : RegEx) (name : String) : Option Int :=
  if !s.isPrepared then none
  else
    let index := P.pcre2_substring_number_from_name s.d_patternCode_p name
    if 0 < index then
      match s.numSubpatterns P with
      | none => none
      | some n => some (if index ≤ n then index else -1)
    else some (-1)

/-! ## States and engines used in the statements -/

/-- Class invariant of the data model: the two handles are null together. -/
def RegEx.handlesPaired (s : RegEx) : Prop :=
  s.d_patternCode_p = 0 ↔ s.d_matchData_p = 0

/-- Matcher states reachable from construction by `prepare` and `clear`
calls, with any arguments and any engine outcomes. -/
inductive Reachable : RegEx → Prop
  | construct (basicAllocator defaultAllocator : Nat) (depthLimit : Int)
      (pcre2Context compileContext matchContext : Nat) (s : RegEx)
      (h : RegEx.construct basicAllocator defaultAllocator depthLimit
            pcre2Context compileContext matchContext = some s) : Reachable s
  | clear (s : RegEx) (h : Reachable s) : Reachable s.clear
  | prepare (s : RegEx) (h : Reachable s) (errorMessage : Option String)
      (errorOffset : Option Nat) (pattern : String) (flags : Int) (o : CompileOutcome) :
      Reachable (s.prepare errorMessage errorOffset pattern flags o).state

/-- A 64-bit engine whose match-limit code is PCRE2's `-47`, for a pattern
with two capture groups of which `"a"` names the first. -/
def pcre64 : Pcre2 :=
  { sizeBits := 64
    PCRE2_ERROR_MATCHLIMIT := -47
    pcre2_pattern_info := fun _ => (0, 2)
    pcre2_substring_number_from_name := fun _ name => if name == "a" then 1 else -49 }

/-- A freshly constructed matcher. -/
def fresh : RegEx :=
  { d_flags := 0
    d_pattern := ""
    d_pcre2Context_p := 16
    d_compileContext_p := 32
    d_matchContext_p := 48
    d_patternCode_p := 0
    d_matchData_p := 0
    d_depthLimit := 10000000
    d_allocator_p := 8 }

/-- Engine outcome of a successful compilation with both handles allocated. -/
def compiled : CompileOutcome :=
  { patternCode := 64
    errorCodeFromPcre2 := 100
    errorOffsetFromPcre2 := 0
    messageResult := 0
    errorBuffer := ""
    matchData := 80 }

/-- Engine outcome of a compilation that the engine rejects. -/
def rejected : CompileOutcome :=
  { patternCode := 0
    errorCodeFromPcre2 := 114
    errorOffsetFromPcre2 := 4
    messageResult := 27
    errorBuffer := "missing closing parenthesis"
    matchData := 0 }

/-- Engine outcome of a compilation that succeeds while the creation of the
output buffer fails. -/
def noBuffer : CompileOutcome :=
  { patternCode := 64
    errorCodeFromPcre2 := 100
    errorOffsetFromPcre2 := 0
    messageResult := 0
    errorBuffer := ""
    matchData := 0 }

/-- The matcher `fresh` after a successful `prepare` of `pattern`. -/
def preparedWith (pattern : String) (flags : Int) : RegEx :=
  (fresh.prepare none none pattern flags compiled).state

/-- A prepared matcher for the pattern `(a)(b)?`. -/
def prepared : RegEx :=
  preparedWith "(a)(b)?" 0

/-- The flat output vector with the given entries. -/
def ovectorOf (l : List Nat) : Nat → Nat :=
  fun j => l.getD j 0

/-! ## Lifecycle: `clear` and `prepare` -/

/-- C9: `clear` applied twice equals `clear` applied once; on an unprepared
matcher it changes nothing; on a prepared matcher it nulls both handles,
empties the pattern and zeroes the flags, and leaves the depth limit, the
allocator and the three contexts as they were. -/
theorem clear_idempotent (s : RegEx) :
    s.clear.clear = s.clear ∧
    (s.isPrepared = false → s.clear = s ∧ s.clear.isPrepared = false) ∧
    (s.isPrepared = true →
      s.clear.isPrepared = false ∧
      s.clear.d_patternCode_p = 0 ∧ s.clear.d_matchData_p = 0 ∧
      s.clear.d_pattern = "" ∧ s.clear.d_flags = 0 ∧
      s.clear.d_depthLimit = s.d_depthLimit ∧
      s.clear.d_allocator_p = s.d_allocator_p ∧
      s.clear.d_pcre2Context_p = s.d_pcre2Context_p ∧
      s.clear.d_compileContext_p = s.d_compileContext_p ∧
      s.clear.d_matchContext_p = s.d_matchContext_p) := by
  rcases s with ⟨f, p, c1, c2, c3, pc, md, dl, al⟩
  by_cases h1 : pc = 0 <;> by_cases h2 : md = 0 <;>
    simp [RegEx.clear, RegEx.isPrepared, h1, h2]

/-- Instance of C9 at a fresh (unprepared) and at a prepared matcher. -/
theorem clear_idempotent_witness :
    (fresh.clear = fresh ∧ fresh.clear.isPrepared = false) ∧
    (prepared.clear.isPrepared = false ∧
      prepared.clear.d_patternCode_p = 0 ∧ prepared.clear.d_matchData_p = 0 ∧
      prepared.clear.d_pattern = "" ∧ prepared.clear.d_flags = 0 ∧
      prepared.clear.d_depthLimit = prepared.d_depthLimit ∧
      prepared.clear.d_allocator_p = prepared.d_allocator_p ∧
      prepared.clear.d_pcre2Context_p = prepared.d_pcre2Context_p ∧
      prepared.clear.d_compileContext_p = prepared.d_compileContext_p ∧
      prepared.clear.d_matchContext_p = prepared.d_matchContext_p) :=
  ⟨(clear_idempotent fresh).2.1 (by decide), (clear_idempotent prepared).2.2 (by decide)⟩

/-- Handles of a matcher after `clear`: both null when it was prepared,
untouched otherwise. -/
theorem clear_handles (s : RegEx) :
    s.clear.d_patternCode_p = (if s.isPrepared then 0 else s.d_patternCode_p) ∧
    s.clear.d_matchData_p = (if s.isPrepared then 0 else s.d_matchData_p) := by
  unfold RegEx.clear
  split <;> simp

/-- After `clear` a matcher is unprepared. -/
theorem clear_unprepared (s : RegEx) : s.clear.isPrepared = false := by
  rcases s with ⟨f, p, c1, c2, c3, pc, md, dl, al⟩
  by_cases h1 : pc = 0 <;> by_cases h2 : md = 0 <;>
    simp [RegEx.clear, RegEx.isPrepared, h1, h2]

/-- The failing returns of `prepare`: the status is failure and the handles
are those left by the initial `clear`. -/
theorem prepare_of_failure (s : RegEx) (errorMessage : Option String)
    (errorOffset : Option Nat) (pattern : String) (flags : Int) (o : CompileOutcome)
    (h : o.patternCode = 0 ∨ o.matchData = 0) :
    (s.prepare errorMessage errorOffset pattern flags o).status = k_FAILURE ∧
    (s.prepare errorMessage errorOffset pattern flags o).state =
      { s.clear with d_pattern := pattern, d_flags := flags } := by
  unfold RegEx.prepare
  by_cases h3 : o.patternCode = 0
  · simp [h3]
  · have h4 : o.matchData = 0 := by tauto
    simp [h3, h4]

/-- The successful return of `prepare`: the status is success and the handles
are the two the engine handed back. -/
theorem prepare_of_success (s : RegEx) (errorMessage : Option String)
    (errorOffset : Option Nat) (pattern : String) (flags : Int) (o : CompileOutcome)
    (h3 : o.patternCode ≠ 0) (h4 : o.matchData ≠ 0) :
    (s.prepare errorMessage errorOffset pattern flags o).status = k_SUCCESS ∧
    (s.prepare errorMessage errorOffset pattern flags o).state =
      { s.clear with d_pattern := pattern, d_flags := flags,
                     d_patternCode_p := o.patternCode, d_matchData_p := o.matchData } := by
  unfold RegEx.prepare
  simp [h3, h4]

/-- Whether `prepare` leaves the matcher prepared is decided by the engine
outcome alone. -/
theorem prepare_isPrepared (s : RegEx) (errorMessage : Option String)
    (errorOffset : Option Nat) (pattern : String) (flags : Int) (o : CompileOutcome) :
    (s.prepare errorMessage errorOffset pattern flags o).state.isPrepared =
      (o.patternCode != 0 && o.matchData != 0) := by
  by_cases h : o.patternCode = 0 ∨ o.matchData = 0
  · rw [(prepare_of_failure s errorMessage errorOffset pattern flags o h).2]
    have hc := clear_unprepared s
    simp only [RegEx.isPrepared] at hc ⊢
    rw [hc]
    rcases h with h | h <;> simp [h]
  · have h3 : o.patternCode ≠ 0 := fun e => h (Or.inl e)
    have h4 : o.matchData ≠ 0 := fun e => h (Or.inr e)
    rw [(prepare_of_success s errorMessage errorOffset pattern flags o h3 h4).2]
    simp [RegEx.isPrepared, h3, h4]

/-- The status of `prepare` is decided by the engine outcome alone. -/
theorem prepare_status (s : RegEx) (errorMessage : Option String)
    (errorOffset : Option Nat) (pattern : String) (flags : Int) (o : CompileOutcome) :
    (s.prepare errorMessage errorOffset pattern flags o).status =
      (if o.patternCode = 0 ∨ o.matchData = 0 then k_FAILURE else k_SUCCESS) := by
  by_cases h : o.patternCode = 0 ∨ o.matchData = 0
  · rw [(prepare_of_failure s errorMessage errorOffset pattern flags o h).1, if_pos h]
  · have h3 : o.patternCode ≠ 0 := fun e => h (Or.inl e)
    have h4 : o.matchData ≠ 0 := fun e => h (Or.inr e)
    rw [(prepare_of_success s errorMessage errorOffset pattern flags o h3 h4).1, if_neg h]

/-- A failed `prepare` on a matcher that is prepared, or whose handles are
both null, leaves both handles null. -/
theorem prepare_failure_handles (s : RegEx) (errorMessage : Option String)
    (errorOffset : Option Nat) (pattern : String) (flags : Int) (o : CompileOutcome)
    (h : o.patternCode = 0 ∨ o.matchData = 0) (hs : s.handlesPaired) :
    (s.prepare errorMessage errorOffset pattern flags o).state.d_patternCode_p = 0 ∧
    (s.prepare errorMessage errorOffset pattern flags o).state.d_matchData_p = 0 := by
  rw [(prepare_of_failure s errorMessage errorOffset pattern flags o h).2]
  have hc := clear_handles s
  simp only [hc.1, hc.2]
  unfold RegEx.handlesPaired at hs
  by_cases hp : s.isPrepared = true
  · simp [hp]
  · have : s.d_patternCode_p = 0 := by
      by_contra hne
      have hmd : s.d_matchData_p ≠ 0 := fun e => hne (hs.2 e)
      exact hp (by simp [RegEx.isPrepared, hne, hmd])
    simp [hp, this, hs.1 this]

/-- Every reachable matcher satisfies the class invariant: its two handles
are null together. -/
theorem reachable_handlesPaired (s : RegEx) (h : Reachable s) : s.handlesPaired := by
  induction h with
  | construct basicAllocator defaultAllocator depthLimit c1 c2 c3 s hs =>
    unfold RegEx.construct at hs
    by_cases h1 : c1 = 0
    · simp [h1] at hs
    · by_cases h2 : c2 = 0
      · simp [h1, h2] at hs
      · by_cases h3 : c3 = 0
        · simp [h1, h2, h3] at hs
        · simp [h1, h2, h3] at hs
          subst hs
          simp [RegEx.handlesPaired]
  | clear s _ ih =>
    have hc := clear_handles s
    unfold RegEx.handlesPaired at ih ⊢
    rw [hc.1, hc.2]
    by_cases hp : s.isPrepared = true
    · simp [hp]
    · simpa [hp] using ih
  | prepare s _ errorMessage errorOffset pattern flags o ih =>
    by_cases hf : o.patternCode = 0 ∨ o.matchData = 0
    · have hz := prepare_failure_handles s errorMessage errorOffset pattern flags o hf ih
      unfold RegEx.handlesPaired
      rw [hz.1, hz.2]
    · have h3 : o.patternCode ≠ 0 := fun e => hf (Or.inl e)
      have h4 : o.matchData ≠ 0 := fun e => hf (Or.inr e)
      unfold RegEx.handlesPaired
      rw [(prepare_of_success s errorMessage errorOffset pattern flags o h3 h4).2]
      simp [h3, h4]

/-- C1: `prepare` returns success exactly when the matcher is prepared
afterwards and failure exactly when it is unprepared afterwards, failure
being the case where the compile or the output-buffer creation fails; no
other status is returned.  Started from a state whose handles are null
together, as they are in every reachable state, `prepare` fails exactly when
it leaves both handles null; and a successful `prepare` followed by a failing
one leaves both handles null, whatever the state before the first call. -/
theorem prepare_status_iff_prepared (s : RegEx) (errorMessage : Option String)
    (errorOffset : Option Nat) (pattern : String) (flags : Int) (o : CompileOutcome) :
    ((s.prepare errorMessage errorOffset pattern flags o).status = k_SUCCESS ↔
      (s.prepare errorMessage errorOffset pattern flags o).state.isPrepared = true) ∧
    ((s.prepare errorMessage errorOffset pattern flags o).status = k_FAILURE ↔
      (s.prepare errorMessage errorOffset pattern flags o).state.isPrepared = false) ∧
    ((s.prepare errorMessage errorOffset pattern flags o).status = k_FAILURE ↔
      (o.patternCode = 0 ∨ o.matchData = 0)) ∧
    ((s.prepare errorMessage errorOffset pattern flags o).status = k_SUCCESS ∨
      (s.prepare errorMessage errorOffset pattern flags o).status = k_FAILURE) ∧
    (s.handlesPaired →
      ((s.prepare errorMessage errorOffset pattern flags o).status = k_FAILURE ↔
        ((s.prepare errorMessage errorOffset pattern flags o).state.d_patternCode_p = 0 ∧
         (s.prepare errorMessage errorOffset pattern flags o).state.d_matchData_p = 0))) ∧
    (Reachable s →
      ((s.prepare errorMessage errorOffset pattern flags o).status = k_FAILURE ↔
        ((s.prepare errorMessage errorOffset pattern flags o).state.d_patternCode_p = 0 ∧
         (s.prepare errorMessage errorOffset pattern flags o).state.d_matchData_p = 0))) ∧
    (∀ (errorMessage2 : Option String) (errorOffset2 : Option Nat) (pattern2 : String)
        (flags2 : Int) (o2 : CompileOutcome),
      (s.prepare errorMessage errorOffset pattern flags o).status = k_SUCCESS →
      ((s.prepare errorMessage errorOffset pattern flags o).state.prepare
          errorMessage2 errorOffset2 pattern2 flags2 o2).status = k_FAILURE →
      ((s.prepare errorMessage errorOffset pattern flags o).state.prepare
          errorMessage2 errorOffset2 pattern2 flags2 o2).state.isPrepared = false ∧
      ((s.prepare errorMessage errorOffset pattern flags o).state.prepare
          errorMessage2 errorOffset2 pattern2 flags2 o2).state.d_patternCode_p = 0 ∧
      ((s.prepare errorMessage errorOffset pattern flags o).state.prepare
          errorMessage2 errorOffset2 pattern2 flags2 o2).state.d_matchData_p = 0) := by
  have hst := prepare_status s errorMessage errorOffset pattern flags o
  have hpr := prepare_isPrepared s errorMessage errorOffset pattern flags o
  have hnull : s.handlesPaired →
      ((s.prepare errorMessage errorOffset pattern flags o).status = k_FAILURE ↔
        ((s.prepare errorMessage errorOffset pattern flags o).state.d_patternCode_p = 0 ∧
         (s.prepare errorMessage errorOffset pattern flags o).state.d_matchData_p = 0)) := by
    intro hs
    constructor
    · intro hf
      rw [hst] at hf
      by_cases h : o.patternCode = 0 ∨ o.matchData = 0
      · exact prepare_failure_handles s errorMessage errorOffset pattern flags o h hs
      · simp [h, k_SUCCESS, k_FAILURE] at hf
    · intro hn
      rw [hst]
      by_cases h : o.patternCode = 0 ∨ o.matchData = 0
      · simp [h]
      · exfalso
        have h3 : o.patternCode ≠ 0 := fun e => h (Or.inl e)
        have h4 : o.matchData ≠ 0 := fun e => h (Or.inr e)
        rw [(prepare_of_success s errorMessage errorOffset pattern flags o h3 h4).2] at hn
        exact h3 hn.1
  refine ⟨?_, ?_, ?_, ?_, hnull, fun hr => hnull (reachable_handlesPaired s hr), ?_⟩
  · rw [hst, hpr]
    by_cases h3 : o.patternCode = 0 <;> by_cases h4 : o.matchData = 0 <;>
      simp [h3, h4, k_SUCCESS, k_FAILURE]
  · rw [hst, hpr]
    by_cases h3 : o.patternCode = 0 <;> by_cases h4 : o.matchData = 0 <;>
      simp [h3, h4, k_SUCCESS, k_FAILURE]
  · rw [hst]
    by_cases h : o.patternCode = 0 ∨ o.matchData = 0 <;> simp [h, k_SUCCESS, k_FAILURE]
  · rw [hst]
    by_cases h : o.patternCode = 0 ∨ o.matchData = 0 <;> simp [h]
  · intro errorMessage2 errorOffset2 pattern2 flags2 o2 h1 h2
    have hp1 : (s.prepare errorMessage errorOffset pattern flags o).state.isPrepared = true := by
      rw [hst] at h1
      rw [hpr]
      by_cases h3 : o.patternCode = 0 <;> by_cases h4 : o.matchData = 0 <;>
        simp [h3, h4, k_SUCCESS, k_FAILURE] at h1 ⊢
    have hf2 : o2.patternCode = 0 ∨ o2.matchData = 0 := by
      rw [prepare_status] at h2
      by_contra hno
      simp [hno, k_SUCCESS, k_FAILURE] at h2
    have hpaired : (s.prepare errorMessage errorOffset pattern flags o).state.handlesPaired := by
      simp only [RegEx.isPrepared, Bool.and_eq_true, bne_iff_ne, ne_eq] at hp1
      unfold RegEx.handlesPaired
      constructor
      · intro e; exact absurd e hp1.1
      · intro e; exact absurd e hp1.2
    refine ⟨?_, prepare_failure_handles _ errorMessage2 errorOffset2 pattern2 flags2 o2 hf2 hpaired⟩
    rw [prepare_isPrepared]
    rcases hf2 with h | h <;> simp [h]
/-- Instance of C1: on the prepared matcher a rejected pattern leaves both
handles null; after a successful `prepare` a second one whose output-buffer
creation fails leaves the matcher unprepared with both handles null; and on
the freshly constructed matcher a rejected pattern leaves both handles
null. -/
theorem prepare_status_iff_prepared_witness :
    ((prepared.prepare (some "") (some 0) "(abc" 2 rejected).state.d_patternCode_p = 0 ∧
      (prepared.prepare (some "") (some 0) "(abc" 2 rejected).state.d_matchData_p = 0) ∧
    (((fresh.prepare none none "(a)(b)?" 0 compiled).state.prepare
        (some "") (some 0) "(b)" 2 noBuffer).state.isPrepared = false ∧
      ((fresh.prepare none none "(a)(b)?" 0 compiled).state.prepare
        (some "") (some 0) "(b)" 2 noBuffer).state.d_patternCode_p = 0 ∧
      ((fresh.prepare none none "(a)(b)?" 0 compiled).state.prepare
        (some "") (some 0) "(b)" 2 noBuffer).state.d_matchData_p = 0) ∧
    ((fresh.prepare none none "(abc" 2 rejected).state.d_patternCode_p = 0 ∧
      (fresh.prepare none none "(abc" 2 rejected).state.d_matchData_p = 0) :=
  ⟨((prepare_status_iff_prepared prepared (some "") (some 0) "(abc" 2 rejected).2.2.2.2.1
      (by unfold RegEx.handlesPaired; decide)).1 (by decide),
   (prepare_status_iff_prepared fresh none none "(a)(b)?" 0 compiled).2.2.2.2.2.2
      (some "") (some 0) "(b)" 2 noBuffer (by decide) (by decide),
   ((prepare_status_iff_prepared fresh none none "(abc" 2 rejected).2.2.2.2.2.1
      (Reachable.construct 8 0 10000000 16 32 48 fresh (by decide))).1 (by decide)⟩

/-- C2: evaluation of the code where the claim fails.  A matcher constructed
and then given a pattern that the engine rejects is a reachable state, it is
unprepared with both handles null, and yet it stores the rejected pattern
`"(abc"` and the flags `2`; after `clear` the same matcher stays like that,
`clear` being without effect on an unprepared matcher. -/
theorem prepare_failure_keeps_pattern_and_flags :
    Reachable (fresh.prepare none none "(abc" 2 rejected).state ∧
    (fresh.prepare none none "(abc" 2 rejected).status = k_FAILURE ∧
    (fresh.prepare none none "(abc" 2 rejected).state.isPrepared = false ∧
    (fresh.prepare none none "(abc" 2 rejected).state.d_patternCode_p = 0 ∧
    (fresh.prepare none none "(abc" 2 rejected).state.d_matchData_p = 0 ∧
    (fresh.prepare none none "(abc" 2 rejected).state.d_pattern = "(abc" ∧
    (fresh.prepare none none "(abc" 2 rejected).state.d_pattern ≠ "" ∧
    (fresh.prepare none none "(abc" 2 rejected).state.d_flags = 2 ∧
    (fresh.prepare none none "(abc" 2 rejected).state.clear.d_pattern = "(abc" ∧
    (fresh.prepare none none "(abc" 2 rejected).state.clear.d_flags = 2 :=
  ⟨Reachable.prepare fresh (Reachable.construct 8 0 10000000 16 32 48 fresh (by decide))
      none none "(abc" 2 rejected,
    by decide, by decide, by decide, by decide, by decide, by decide, by decide, by decide,
    by decide⟩

/-! ## Execution -/

/-- C3: on a prepared matcher, with `subjectOffset <= subjectLength` and a
subject that is non-null unless its length is zero, `privateMatch` and the
presence-only overload return a status fixed by the engine's return value
`r`: depth-limit failure exactly when `r` is the match-limit code, failure
exactly when `r` is another negative value, success exactly when `0 <= r`;
no other status is returned.  The match-limit code is one of the engine's
negative codes. -/
theorem privateMatch_status (P : Pcre2) (hlimit : P.PCRE2_ERROR_MATCHLIMIT < 0)
    (s : RegEx) (hprepared : s.isPrepared = true)
    (subject subjectLength subjectOffset : Nat)
    (hsubject : subject ≠ 0 ∨ subjectLength = 0) (hoffset : subjectOffset ≤ subjectLength)
    (o : MatchOutcome) :
    ∃ status : Int,
      s.privateMatch P subject subjectLength subjectOffset o = some status ∧
      s.match_ P subject subjectLength subjectOffset o = some status ∧
      (status = k_DEPTHLIMITFAILURE ↔ o.returnValue = P.PCRE2_ERROR_MATCHLIMIT) ∧
      (status = k_FAILURE ↔
        (o.returnValue < 0 ∧ o.returnValue ≠ P.PCRE2_ERROR_MATCHLIMIT)) ∧
      (status = k_SUCCESS ↔ 0 ≤ o.returnValue) ∧
      (status = k_SUCCESS ∨ status = k_DEPTHLIMITFAILURE ∨ status = k_FAILURE) := by
  have hpre : (subject != 0 || subjectLength == 0) = true := by
    rcases hsubject with h | h <;> simp [h]
  by_cases h1 : P.PCRE2_ERROR_MATCHLIMIT = o.returnValue
  · refine ⟨k_DEPTHLIMITFAILURE, ?_, ?_, ?_⟩
    · simp [RegEx.privateMatch, hpre, hoffset, hprepared, h1]
    · simp [RegEx.match_, RegEx.privateMatch, hpre, hoffset, hprepared, h1]
    · refine ⟨?_, ?_, ?_, ?_⟩ <;> simp [k_DEPTHLIMITFAILURE, k_FAILURE, k_SUCCESS] <;> omega
  · by_cases h2 : 0 > o.returnValue
    · refine ⟨k_FAILURE, ?_, ?_, ?_⟩
      · simp [RegEx.privateMatch, hpre, hoffset, hprepared, h1, h2]
      · simp [RegEx.match_, RegEx.privateMatch, hpre, hoffset, hprepared, h1, h2]
      · refine ⟨?_, ?_, ?_, ?_⟩ <;> simp [k_DEPTHLIMITFAILURE, k_FAILURE, k_SUCCESS] <;> omega
    · refine ⟨k_SUCCESS, ?_, ?_, ?_⟩
      · simp [RegEx.privateMatch, hpre, hoffset, hprepared, h1, h2]
      · simp [RegEx.match_, RegEx.privateMatch, hpre, hoffset, hprepared, h1, h2]
      · refine ⟨?_, ?_, ?_, ?_⟩ <;> simp [k_DEPTHLIMITFAILURE, k_FAILURE, k_SUCCESS] <;> omega

/-- Instance of C3: the 64-bit engine reporting its match-limit code `-47` on
the prepared matcher and a one-byte subject. -/
theorem privateMatch_status_witness :
    ∃ status : Int,
      prepared.privateMatch pcre64 4096 1 0
        { returnValue := -47, ovector := ovectorOf [], ovectorCount := 3 } = some status ∧
      prepared.match_ pcre64 4096 1 0
        { returnValue := -47, ovector := ovectorOf [], ovectorCount := 3 } = some status ∧
      (status = k_DEPTHLIMITFAILURE ↔ (-47 : Int) = pcre64.PCRE2_ERROR_MATCHLIMIT) ∧
      (status = k_FAILURE ↔
        ((-47 : Int) < 0 ∧ (-47 : Int) ≠ pcre64.PCRE2_ERROR_MATCHLIMIT)) ∧
      (status = k_SUCCESS ↔ 0 ≤ (-47 : Int)) ∧
      (status = k_SUCCESS ∨ status = k_DEPTHLIMITFAILURE ∨ status = k_FAILURE) :=
  privateMatch_status pcre64 (by decide) prepared (by decide) 4096 1 0
    (Or.inl (by decide)) (by decide)
    { returnValue := -47, ovector := ovectorOf [], ovectorCount := 3 }

/-! ## Name resolution -/

/-- C8: on a prepared matcher whose capture count `n` the engine reports,
`subpatternIndex(name)` returns the engine-resolved index `k` when
`1 <= k <= n` and `-1` in every other case, so the result is `-1` or lies in
`[1, n]`; when `k <= 0` it returns `-1` without asking for the count. -/
theorem subpatternIndex_bounds (P : Pcre2) (s : RegEx) (hprepared : s.isPrepared = true)
    (name : String) :
    (∀ n : Int, s.numSubpatterns P = some n →
      s.subpatternIndex P name =
        some (if 1 ≤ P.pcre2_substring_number_from_name s.d_patternCode_p name ∧
                 P.pcre2_substring_number_from_name s.d_patternCode_p name ≤ n
              then P.pcre2_substring_number_from_name s.d_patternCode_p name else -1) ∧
      ∃ r : Int, s.subpatternIndex P name = some r ∧ (r = -1 ∨ (1 ≤ r ∧ r ≤ n))) ∧
    (P.pcre2_substring_number_from_name s.d_patternCode_p name ≤ 0 →
      s.subpatternIndex P name = some (-1)) := by
  constructor
  · intro n hn
    have hval : s.subpatternIndex P name =
        some (if 1 ≤ P.pcre2_substring_number_from_name s.d_patternCode_p name ∧
                 P.pcre2_substring_number_from_name s.d_patternCode_p name ≤ n
              then P.pcre2_substring_number_from_name s.d_patternCode_p name else -1) := by
      unfold RegEx.subpatternIndex
      simp only [hprepared, hn]
      by_cases h0 : 0 < P.pcre2_substring_number_from_name s.d_patternCode_p name
      · have h1 : 1 ≤ P.pcre2_substring_number_from_name s.d_patternCode_p name := h0
        simp [h0, h1]
      · have h1 : ¬ 1 ≤ P.pcre2_substring_number_from_name s.d_patternCode_p name := h0
        simp [h0, h1]
    refine ⟨hval, _, hval, ?_⟩
    split
    · rename_i h
      exact Or.inr h
    · exact Or.inl rfl
  · intro h0
    have h1 : ¬ 0 < P.pcre2_substring_number_from_name s.d_patternCode_p name := by omega
    simp [RegEx.subpatternIndex, hprepared, h1]

/-- Instance of C8: on the prepared matcher with two capture groups the name
`"a"` resolves to 1 and an unknown name, for which the engine answers `-49`,
to `-1`. -/
theorem subpatternIndex_bounds_witness :
    (prepared.subpatternIndex pcre64 "a" = some 1 ∧
      ∃ r : Int, prepared.subpatternIndex pcre64 "a" = some r ∧ (r = -1 ∨ (1 ≤ r ∧ r ≤ 2))) ∧
    prepared.subpatternIndex pcre64 "zz" = some (-1) :=
  ⟨(subpatternIndex_bounds pcre64 prepared (by decide) "a").1 2 (by decide),
   (subpatternIndex_bounds pcre64 prepared (by decide) "zz").2 (by decide)⟩

/-! ## Arithmetic of the projection -/

/-- The wrapped difference is a `size_t` value. -/
theorem sub_lt (P : Pcre2) (a b : Nat) : P.sub a b < 2 ^ P.sizeBits := by
  unfold Pcre2.sub
  exact Nat.mod_lt _ (Nat.two_pow_pos _)

/-- The wrapped difference is the difference modulo `2 ^ sizeBits`: adding the
subtrahend back gives the minuend again. -/
theorem sub_add_mod (P : Pcre2) (a b : Nat) :
    (P.sub a b + b) % 2 ^ P.sizeBits = a % 2 ^ P.sizeBits := by
  unfold Pcre2.sub
  have hpos : 0 < 2 ^ P.sizeBits := Nat.two_pow_pos _
  generalize 2 ^ P.sizeBits = M at hpos
  have hb : b % M < M := Nat.mod_lt _ hpos
  have hdecomp : b = M * (b / M) + b % M := (Nat.div_add_mod b M).symm
  rw [Nat.mod_add_mod]
  have hsum : a + (M - b % M) + b = a + M * (b / M + 1) := by
    have : a + (M - b % M) + b = a + (M - b % M) + (M * (b / M) + b % M) := by
      rw [← hdecomp]
    rw [this, Nat.mul_add, Nat.mul_one]
    omega
  rw [hsum, Nat.add_mul_mod_self_left]

/-- Without wrap-around the difference is the ordinary one. -/
theorem sub_of_le (P : Pcre2) (a b : Nat) (hle : b ≤ a) (ha : a < 2 ^ P.sizeBits) :
    P.sub a b = a - b := by
  unfold Pcre2.sub
  generalize 2 ^ P.sizeBits = M at ha
  have hb : b % M = b := Nat.mod_eq_of_lt (by omega)
  rw [hb]
  have hsum : a + (M - b) = (a - b) + M := by omega
  rw [hsum, Nat.add_mod_right]
  exact Nat.mod_eq_of_lt (by omega)

/-- The unset marker is a `size_t` value. -/
theorem UNSET_lt (P : Pcre2) : P.UNSET < 2 ^ P.sizeBits := by
  unfold Pcre2.UNSET
  have : 0 < 2 ^ P.sizeBits := Nat.two_pow_pos _
  omega

/-- The length computed for a pair of unset markers is zero. -/
theorem sub_UNSET (P : Pcre2) : P.sub P.UNSET P.UNSET = 0 := by
  rw [sub_of_le P P.UNSET P.UNSET (Nat.le_refl _) (UNSET_lt P)]
  exact Nat.sub_self _

/-- A length below `2 ^ 31` survives the conversion to `int`. -/
theorem static_cast_int_of_lt (n : Nat) (h : n < 2 ^ 31) : static_cast_int n = (n : Int) := by
  unfold static_cast_int
  have hmod : n % 2 ^ 32 = n := Nat.mod_eq_of_lt (by omega)
  rw [hmod, if_pos h]

/-- Resizing gives exactly the requested number of elements. -/
theorem vector_resize_length {α : Type} (v : List α) (n : Nat) (d : α) :
    (vector_resize v n d).length = n := by
  unfold vector_resize
  simp only [List.length_append, List.length_take, List.length_replicate]
  omega

/-! ## The vector-of-pairs overload -/

/-- The loop of the vector-of-pairs overload keeps the size of the vector. -/
theorem match_vector_pair_loop_length (P : Pcre2) (o : MatchOutcome) (fuel : Nat) :
    ∀ (i j : Nat) (result : List (Nat × Nat)),
      (RegEx.match_vector_pair_loop P o fuel i j result).length = result.length := by
  induction fuel with
  | zero => intro i j result; rfl
  | succ fuel ih =>
    intro i j result
    unfold RegEx.match_vector_pair_loop
    split
    · rw [ih, List.length_set]
    · rfl

/-- The loop of the vector-of-pairs overload, started at index `i` with the
iterations that remain, leaves the elements below `i` alone and stores the
decoded pair in every element from `i` on. -/
theorem match_vector_pair_loop_get (P : Pcre2) (o : MatchOutcome) (fuel : Nat) :
    ∀ (i : Nat) (result : List (Nat × Nat)),
      i + fuel = o.ovectorCount → result.length = o.ovectorCount →
      ∀ k : Nat, k < o.ovectorCount →
        (RegEx.match_vector_pair_loop P o fuel i (2 * i) result)[k]? =
          if k < i then result[k]?
          else some (o.ovector (2 * k), P.sub (o.ovector (2 * k + 1)) (o.ovector (2 * k))) := by
  induction fuel with
  | zero =>
    intro i result hi _ k hk
    have : k < i := by omega
    simp [RegEx.match_vector_pair_loop, this]
  | succ fuel ih =>
    intro i result hi hlen k hk
    have hlt : i < o.ovectorCount := by omega
    unfold RegEx.match_vector_pair_loop
    rw [if_pos hlt]
    have hj : 2 * i + 2 = 2 * (i + 1) := by omega
    simp only [hj]
    rw [ih (i + 1) _ (by omega) (by rw [List.length_set]; exact hlen) k hk]
    by_cases h1 : k < i
    · have h2 : k < i + 1 := by omega
      have h3 : i ≠ k := by omega
      rw [if_pos h2, if_pos h1, List.getElem?_set_ne h3]
    · by_cases h4 : k = i
      · subst h4
        have h5 : k < k + 1 := by omega
        rw [if_pos h5, if_neg h1, List.getElem?_set_self (by omega)]
      · have h6 : ¬ k < i + 1 := by omega
        rw [if_neg h6, if_neg h1]

/-- More fuel than iterations left does not change what the loop of the
vector-of-pairs overload computes. -/
theorem match_vector_pair_loop_fuel (P : Pcre2) (o : MatchOutcome) (fuel : Nat) :
    ∀ (extra i j : Nat) (result : List (Nat × Nat)),
      o.ovectorCount ≤ i + fuel →
      RegEx.match_vector_pair_loop P o (fuel + extra) i j result =
        RegEx.match_vector_pair_loop P o fuel i j result := by
  induction fuel with
  | zero =>
    intro extra i j result hi
    cases extra with
    | zero => rfl
    | succ e =>
      have : ¬ i < o.ovectorCount := by omega
      simp [RegEx.match_vector_pair_loop, this]
  | succ fuel ih =>
    intro extra i j result hi
    have hre : fuel + 1 + extra = (fuel + extra) + 1 := by omega
    rw [hre]
    unfold RegEx.match_vector_pair_loop
    split
    · exact ih extra (i + 1) (j + 2) _ (by omega)
    · rfl

/-- C4: after a successful execution the vector-of-pairs overload returns
success and leaves the caller's vector with exactly `ovectorCount` elements,
whatever it held before; element `i` is the pair made of `ov[2i]` and of
`ov[2i+1] - ov[2i]` taken modulo `2 ^ sizeBits` (a `size_t` value which, added
to `ov[2i]`, gives `ov[2i+1]` again modulo `2 ^ sizeBits`); the element of a
pair of unset markers is the marker itself with length zero. -/
theorem match_vector_pair_projection (P : Pcre2) (s : RegEx) (result : List (Nat × Nat))
    (subject subjectLength subjectOffset : Nat) (o : MatchOutcome)
    (hsuccess : s.privateMatch P subject subjectLength subjectOffset o = some k_SUCCESS) :
    ∃ v : List (Nat × Nat),
      s.match_vector_pair P result subject subjectLength subjectOffset o = some (k_SUCCESS, v) ∧
      v.length = o.ovectorCount ∧
      ∀ i : Nat, i < o.ovectorCount →
        v[i]? = some (o.ovector (2 * i), P.sub (o.ovector (2 * i + 1)) (o.ovector (2 * i))) ∧
        P.sub (o.ovector (2 * i + 1)) (o.ovector (2 * i)) < 2 ^ P.sizeBits ∧
        (P.sub (o.ovector (2 * i + 1)) (o.ovector (2 * i)) + o.ovector (2 * i)) % 2 ^ P.sizeBits =
          o.ovector (2 * i + 1) % 2 ^ P.sizeBits ∧
        (o.ovector (2 * i) = P.UNSET → o.ovector (2 * i + 1) = P.UNSET →
          v[i]? = some (P.UNSET, 0)) := by
  refine ⟨RegEx.match_vector_pair_loop P o o.ovectorCount 0 0
      (vector_resize result o.ovectorCount (0, 0)), ?_, ?_, ?_⟩
  · unfold RegEx.match_vector_pair
    rw [hsuccess]
    simp
  · rw [match_vector_pair_loop_length, vector_resize_length]
  · intro i hi
    have hget := match_vector_pair_loop_get P o o.ovectorCount 0
      (vector_resize result o.ovectorCount (0, 0)) (by omega)
      (vector_resize_length _ _ _) i hi
    simp only [Nat.mul_zero, Nat.not_lt_zero, if_false] at hget
    refine ⟨hget, sub_lt P _ _, sub_add_mod P _ _, ?_⟩
    intro h1 h2
    rw [hget, h1, h2, sub_UNSET]

/-- Instance of C4 (Example 1 of the spec): the pattern `(a)(b)?` on the
subject `a`, where the engine leaves `0, 1, 0, 1, UNSET, UNSET` in the output
vector, yields the three pairs `(0, 1)`, `(0, 1)` and `(UNSET, 0)` in a vector
that held five other elements before. -/
theorem match_vector_pair_projection_witness :
    prepared.match_vector_pair pcre64 [(9, 9), (9, 9), (9, 9), (9, 9), (9, 9)] 4096 1 0
        { returnValue := 3
          ovector := ovectorOf [0, 1, 0, 1, pcre64.UNSET, pcre64.UNSET]
          ovectorCount := 3 } =
      some (k_SUCCESS, [(0, 1), (0, 1), (pcre64.UNSET, 0)]) ∧
    ∃ v : List (Nat × Nat),
      prepared.match_vector_pair pcre64 [(9, 9), (9, 9), (9, 9), (9, 9), (9, 9)] 4096 1 0
        { returnValue := 3
          ovector := ovectorOf [0, 1, 0, 1, pcre64.UNSET, pcre64.UNSET]
          ovectorCount := 3 } = some (k_SUCCESS, v) ∧
      v.length = 3 :=
  ⟨by decide,
   (match_vector_pair_projection pcre64 prepared [(9, 9), (9, 9), (9, 9), (9, 9), (9, 9)]
      4096 1 0
      { returnValue := 3
        ovector := ovectorOf [0, 1, 0, 1, pcre64.UNSET, pcre64.UNSET]
        ovectorCount := 3 } (by decide)).imp fun _ h => ⟨h.1, h.2.1⟩⟩

/-! ## The single-range overload -/

/-- C7, where the claim fails: for the pattern `a+` on a subject of
`2 ^ 32 + 7` bytes that it matches whole, the length `2 ^ 32 + 7` is
non-zero and representable in a 64-bit `size_t`, and the view the overload
writes has length 7. -/
theorem match_StringRef_view_counterexample :
    (preparedWith "a+" 0).match_StringRef pcre64 StringRef.reset 4096 4294967303 0
        { returnValue := 1, ovector := ovectorOf [0, 4294967303], ovectorCount := 1 } =
      some (k_SUCCESS, { d_begin := 4096, d_length := 7 }) ∧
    pcre64.sub 4294967303 0 = 4294967303 ∧
    4294967303 < 2 ^ pcre64.sizeBits ∧
    ({ d_begin := 4096, d_length := 7 } : StringRef) ≠
      { d_begin := 4096 + 0, d_length := 4294967303 } := by
  decide

/-- C7 as amended: after a successful execution whose output vector holds at
least the overall pair, with `offset = ov[0]` and `length = ov[1] - ov[0]`
(modulo `2 ^ sizeBits`), the single-view overload returns success and writes
the explicit empty view when the length is 0, and the view of exactly
`length` bytes starting at `subject + offset` when the length is non-zero and
below `2 ^ 31`. -/
theorem match_StringRef_view (P : Pcre2) (s : RegEx) (result : StringRef)
    (subject subjectLength subjectOffset : Nat) (o : MatchOutcome)
    (hsuccess : s.privateMatch P subject subjectLength subjectOffset o = some k_SUCCESS)
    (hcount : 1 ≤ o.ovectorCount) :
    (P.sub (o.ovector 1) (o.ovector 0) = 0 →
      s.match_StringRef P result subject subjectLength subjectOffset o =
        some (k_SUCCESS, StringRef.reset)) ∧
    (P.sub (o.ovector 1) (o.ovector 0) ≠ 0 → P.sub (o.ovector 1) (o.ovector 0) < 2 ^ 31 →
      s.match_StringRef P result subject subjectLength subjectOffset o =
        some (k_SUCCESS,
          { d_begin := subject + o.ovector 0
            d_length := (P.sub (o.ovector 1) (o.ovector 0) : Nat) })) := by
  have hgeneral : P.sub (o.ovector 1) (o.ovector 0) ≠ 0 →
      s.match_StringRef P result subject subjectLength subjectOffset o =
        some (k_SUCCESS,
          { d_begin := subject + o.ovector 0
            d_length := static_cast_int (P.sub (o.ovector 1) (o.ovector 0)) }) := by
    intro hne
    unfold RegEx.match_StringRef
    rw [hsuccess]
    simp [hcount, hne, StringRef.assign]
  refine ⟨?_, ?_⟩
  · intro hzero
    unfold RegEx.match_StringRef
    rw [hsuccess]
    simp [hcount, hzero]
  · intro hne hsmall
    rw [hgeneral hne, static_cast_int_of_lt _ hsmall]

/-- Instance of amended C7 (Example 4 of the spec): the pattern `a*` on the
empty subject, given by a null pointer and length 0, where the engine leaves
`0, 0` in the output vector, yields the explicit empty view; on the subject
`aaa` it yields the view of 3 bytes at the subject's address. -/
theorem match_StringRef_view_witness :
    (preparedWith "a*" 0).match_StringRef pcre64 { d_begin := 77, d_length := 5 } 0 0 0
        { returnValue := 1, ovector := ovectorOf [0, 0], ovectorCount := 1 } =
      some (k_SUCCESS, StringRef.reset) ∧
    (preparedWith "a*" 0).match_StringRef pcre64 { d_begin := 77, d_length := 5 } 4096 3 0
        { returnValue := 1, ovector := ovectorOf [0, 3], ovectorCount := 1 } =
      some (k_SUCCESS, { d_begin := 4096 + 0, d_length := (3 : Nat) }) :=
  ⟨(match_StringRef_view pcre64 (preparedWith "a*" 0) { d_begin := 77, d_length := 5 } 0 0 0
      { returnValue := 1, ovector := ovectorOf [0, 0], ovectorCount := 1 }
      (by decide) (by decide)).1 (by decide),
   (match_StringRef_view pcre64 (preparedWith "a*" 0) { d_begin := 77, d_length := 5 } 4096 3 0
      { returnValue := 1, ovector := ovectorOf [0, 3], ovectorCount := 1 }
      (by decide) (by decide)).2 (by decide) (by decide)⟩

/-! ## The vector-of-views overload -/

/-- One iteration of the loop of the vector-of-views overload stores the view
decoded from the pair at `j` into element `i`. -/
theorem match_vector_StringRef_loop_succ (P : Pcre2) (subject : Nat) (o : MatchOutcome)
    (fuel i j : Nat) (result : List StringRef) (hlt : i < o.ovectorCount) :
    RegEx.match_vector_StringRef_loop P subject o (fuel + 1) i j result =
      RegEx.match_vector_StringRef_loop P subject o fuel (i + 1) (j + 2)
        (result.set i
          (if P.sub (o.ovector (j + 1)) (o.ovector j) != 0 then
            StringRef.assign (subject + o.ovector j)
              (static_cast_int (P.sub (o.ovector (j + 1)) (o.ovector j)))
          else StringRef.reset)) := by
  conv => lhs; unfold RegEx.match_vector_StringRef_loop
  rw [if_pos hlt]
  by_cases h : (P.sub (o.ovector (j + 1)) (o.ovector j) != 0) = true
  · simp only [h, if_true]
  · simp only [h, if_false]
    rfl

/-- The loop of the vector-of-views overload keeps the size of the vector. -/
theorem match_vector_StringRef_loop_length (P : Pcre2) (subject : Nat) (o : MatchOutcome)
    (fuel : Nat) :
    ∀ (i j : Nat) (result : List StringRef),
      (RegEx.match_vector_StringRef_loop P subject o fuel i j result).length =
        result.length := by
  induction fuel with
  | zero => intro i j result; rfl
  | succ fuel ih =>
    intro i j result
    by_cases hlt : i < o.ovectorCount
    · rw [match_vector_StringRef_loop_succ P subject o fuel i j result hlt, ih,
        List.length_set]
    · unfold RegEx.match_vector_StringRef_loop
      rw [if_neg hlt]

/-- The loop of the vector-of-views overload, started at index `i` with the
iterations that remain, leaves the elements below `i` alone and stores the
decoded view in every element from `i` on. -/
theorem match_vector_StringRef_loop_get (P : Pcre2) (subject : Nat) (o : MatchOutcome)
    (fuel : Nat) :
    ∀ (i : Nat) (result : List StringRef),
      i + fuel = o.ovectorCount → result.length = o.ovectorCount →
      ∀ k : Nat, k < o.ovectorCount →
        (RegEx.match_vector_StringRef_loop P subject o fuel i (2 * i) result)[k]? =
          if k < i then result[k]?
          else some
            (if P.sub (o.ovector (2 * k + 1)) (o.ovector (2 * k)) != 0 then
              StringRef.assign (subject + o.ovector (2 * k))
                (static_cast_int (P.sub (o.ovector (2 * k + 1)) (o.ovector (2 * k))))
            else StringRef.reset) := by
  induction fuel with
  | zero =>
    intro i result hi _ k hk
    have : k < i := by omega
    simp [RegEx.match_vector_StringRef_loop, this]
  | succ fuel ih =>
    intro i result hi hlen k hk
    have hlt : i < o.ovectorCount := by omega
    rw [match_vector_StringRef_loop_succ P subject o fuel i (2 * i) result hlt]
    have hj : 2 * i + 2 = 2 * (i + 1) := by omega
    simp only [hj]
    rw [ih (i + 1) _ (by omega) (by rw [List.length_set]; exact hlen) k hk]
    by_cases h1 : k < i
    · have h2 : k < i + 1 := by omega
      have h3 : i ≠ k := by omega
      rw [if_pos h2, if_pos h1, List.getElem?_set_ne h3]
    · by_cases h4 : k = i
      · subst h4
        have h5 : k < k + 1 := by omega
        rw [if_pos h5, if_neg h1, List.getElem?_set_self (by omega)]
      · have h6 : ¬ k < i + 1 := by omega
        rw [if_neg h6, if_neg h1]

/-- More fuel than iterations left does not change what the loop of the
vector-of-views overload computes. -/
theorem match_vector_StringRef_loop_fuel (P : Pcre2) (subject : Nat) (o : MatchOutcome)
    (fuel : Nat) :
    ∀ (extra i j : Nat) (result : List StringRef),
      o.ovectorCount ≤ i + fuel →
      RegEx.match_vector_StringRef_loop P subject o (fuel + extra) i j result =
        RegEx.match_vector_StringRef_loop P subject o fuel i j result := by
  induction fuel with
  | zero =>
    intro extra i j result hi
    cases extra with
    | zero => rfl
    | succ e =>
      have : ¬ i < o.ovectorCount := by omega
      simp [RegEx.match_vector_StringRef_loop, this]
  | succ fuel ih =>
    intro extra i j result hi
    have hre : fuel + 1 + extra = (fuel + extra) + 1 := by omega
    rw [hre]
    by_cases hlt : i < o.ovectorCount
    · rw [match_vector_StringRef_loop_succ P subject o (fuel + extra) i j result hlt,
        match_vector_StringRef_loop_succ P subject o fuel i j result hlt]
      exact ih extra (i + 1) (j + 2) _ (by omega)
    · unfold RegEx.match_vector_StringRef_loop
      rw [if_neg hlt, if_neg hlt]

/-- C6, where the claim fails: for the pattern `(a+)` on a subject of
`2 ^ 32 + 5` bytes that it matches whole, the pair of the capture group is
`0, 2 ^ 32 + 5`: the group took part in the match, its start is below its end,
and the view the overload stores for it has length 5, not `2 ^ 32 + 5`. -/
theorem match_vector_StringRef_projection_counterexample :
    (preparedWith "(a+)" 0).match_vector_StringRef pcre64 [] 4096 4294967301 0
        { returnValue := 2
          ovector := ovectorOf [0, 4294967301, 0, 4294967301]
          ovectorCount := 2 } =
      some (k_SUCCESS,
        [{ d_begin := 4096, d_length := 5 }, { d_begin := 4096, d_length := 5 }]) ∧
    ovectorOf [0, 4294967301, 0, 4294967301] 2 ≤ ovectorOf [0, 4294967301, 0, 4294967301] 3 ∧
    ovectorOf [0, 4294967301, 0, 4294967301] 3 ≠ ovectorOf [0, 4294967301, 0, 4294967301] 2 ∧
    ovectorOf [0, 4294967301, 0, 4294967301] 3 ≠ pcre64.UNSET ∧
    ({ d_begin := 4096, d_length := 5 } : StringRef) ≠
      { d_begin := 4096 + ovectorOf [0, 4294967301, 0, 4294967301] 2
        d_length := ((ovectorOf [0, 4294967301, 0, 4294967301] 3 -
          ovectorOf [0, 4294967301, 0, 4294967301] 2 : Nat) : Int) } := by
  decide

/-- C6 as amended: after a successful execution the vector-of-views overload
returns success with exactly `ovectorCount` views.  The view of a pair of
unset markers is the explicit empty view.  For a pair of `size_t` values with
`ov[2i] <= ov[2i+1]` the view is the explicit empty view when the two are
equal, and the view of `ov[2i+1] - ov[2i]` bytes starting at
`subject + ov[2i]` when that length is non-zero and below `2 ^ 31`. -/
theorem match_vector_StringRef_projection (P : Pcre2) (s : RegEx) (result : List StringRef)
    (subject subjectLength subjectOffset : Nat) (o : MatchOutcome)
    (hsuccess : s.privateMatch P subject subjectLength subjectOffset o = some k_SUCCESS) :
    ∃ v : List StringRef,
      s.match_vector_StringRef P result subject subjectLength subjectOffset o =
        some (k_SUCCESS, v) ∧
      v.length = o.ovectorCount ∧
      ∀ i : Nat, i < o.ovectorCount →
        (o.ovector (2 * i) = P.UNSET → o.ovector (2 * i + 1) = P.UNSET →
          v[i]? = some StringRef.reset) ∧
        (o.ovector (2 * i) ≤ o.ovector (2 * i + 1) → o.ovector (2 * i + 1) < 2 ^ P.sizeBits →
          (o.ovector (2 * i + 1) = o.ovector (2 * i) → v[i]? = some StringRef.reset) ∧
          (o.ovector (2 * i + 1) ≠ o.ovector (2 * i) →
            o.ovector (2 * i + 1) - o.ovector (2 * i) < 2 ^ 31 →
            v[i]? = some
              { d_begin := subject + o.ovector (2 * i)
                d_length := ((o.ovector (2 * i + 1) - o.ovector (2 * i) : Nat) : Int) })) := by
  refine ⟨RegEx.match_vector_StringRef_loop P subject o o.ovectorCount 0 0
      (vector_resize result o.ovectorCount StringRef.reset), ?_, ?_, ?_⟩
  · unfold RegEx.match_vector_StringRef
    rw [hsuccess]
    simp
  · rw [match_vector_StringRef_loop_length, vector_resize_length]
  · intro i hi
    have hget := match_vector_StringRef_loop_get P subject o o.ovectorCount 0
      (vector_resize result o.ovectorCount StringRef.reset) (by omega)
      (vector_resize_length _ _ _) i hi
    simp only [Nat.mul_zero, Nat.not_lt_zero, if_false] at hget
    constructor
    · intro h1 h2
      rw [hget, h1, h2, sub_UNSET]
      simp
    · intro hle hsize
      have hsub := sub_of_le P _ _ hle hsize
      rw [hget, hsub]
      have hgeneral : o.ovector (2 * i + 1) ≠ o.ovector (2 * i) →
          some (if (o.ovector (2 * i + 1) - o.ovector (2 * i) != 0) = true then
              StringRef.assign (subject + o.ovector (2 * i))
                (static_cast_int (o.ovector (2 * i + 1) - o.ovector (2 * i)))
            else StringRef.reset) =
          some ({ d_begin := subject + o.ovector (2 * i)
                  d_length := static_cast_int
                    (o.ovector (2 * i + 1) - o.ovector (2 * i)) } : StringRef) := by
        intro hne
        have hpos : o.ovector (2 * i + 1) - o.ovector (2 * i) ≠ 0 := by omega
        simp [hpos, StringRef.assign]
      refine ⟨?_, ?_⟩
      · intro heq
        simp [heq]
      · intro hne hsmall
        rw [hgeneral hne, static_cast_int_of_lt _ hsmall]

/-- Instance of amended C6: the pattern `(a)(b)?` on the subject `a`, where
the engine leaves `0, 1, 0, 1, UNSET, UNSET`, yields two views of one byte at
the subject's address and the explicit empty view for the second group. -/
theorem match_vector_StringRef_projection_witness :
    prepared.match_vector_StringRef pcre64 [] 4096 1 0
        { returnValue := 3
          ovector := ovectorOf [0, 1, 0, 1, pcre64.UNSET, pcre64.UNSET]
          ovectorCount := 3 } =
      some (k_SUCCESS,
        [{ d_begin := 4096, d_length := 1 }, { d_begin := 4096, d_length := 1 },
          StringRef.reset]) ∧
    ∃ v : List StringRef,
      prepared.match_vector_StringRef pcre64 [] 4096 1 0
        { returnValue := 3
          ovector := ovectorOf [0, 1, 0, 1, pcre64.UNSET, pcre64.UNSET]
          ovectorCount := 3 } = some (k_SUCCESS, v) ∧
      v.length = 3 ∧
      v[2]? = some StringRef.reset ∧
      v[1]? = some { d_begin := 4096 + 0, d_length := ((1 - 0 : Nat) : Int) } :=
  ⟨by decide,
   (match_vector_StringRef_projection pcre64 prepared [] 4096 1 0
      { returnValue := 3
        ovector := ovectorOf [0, 1, 0, 1, pcre64.UNSET, pcre64.UNSET]
        ovectorCount := 3 } (by decide)).imp fun _ h =>
      ⟨h.1, h.2.1, (h.2.2 2 (by decide)).1 (by decide) (by decide),
        ((h.2.2 1 (by decide)).2 (by decide) (by decide)).2 (by decide) (by decide)⟩⟩

/-! ## Status and frame of the five overloads -/

/-- C10: for one engine outcome the two vector overloads return the status
of the presence-only overload, and so do the two single-result overloads when
the output vector holds at least the overall pair, as they assert; and when
the presence-only overload returns a status other than success, each of the
four other overloads returns that status and leaves the caller's pair, view,
vector of pairs or vector of views exactly as it was. -/
theorem match_overloads_status_and_frame (P : Pcre2) (s : RegEx)
    (subject subjectLength subjectOffset : Nat) (o : MatchOutcome)
    (pair : Nat × Nat) (view : StringRef) (pairs : List (Nat × Nat)) (views : List StringRef) :
    (s.match_vector_pair P pairs subject subjectLength subjectOffset o).map Prod.fst =
      s.match_ P subject subjectLength subjectOffset o ∧
    (s.match_vector_StringRef P views subject subjectLength subjectOffset o).map Prod.fst =
      s.match_ P subject subjectLength subjectOffset o ∧
    (1 ≤ o.ovectorCount →
      (s.match_pair P pair subject subjectLength subjectOffset o).map Prod.fst =
        s.match_ P subject subjectLength subjectOffset o ∧
      (s.match_StringRef P view subject subjectLength subjectOffset o).map Prod.fst =
        s.match_ P subject subjectLength subjectOffset o) ∧
    (∀ status : Int, s.match_ P subject subjectLength subjectOffset o = some status →
      status ≠ k_SUCCESS →
      s.match_pair P pair subject subjectLength subjectOffset o = some (status, pair) ∧
      s.match_StringRef P view subject subjectLength subjectOffset o = some (status, view) ∧
      s.match_vector_pair P pairs subject subjectLength subjectOffset o =
        some (status, pairs) ∧
      s.match_vector_StringRef P views subject subjectLength subjectOffset o =
        some (status, views)) := by
  unfold RegEx.match_ RegEx.match_pair RegEx.match_StringRef RegEx.match_vector_pair
    RegEx.match_vector_StringRef
  cases hm : s.privateMatch P subject subjectLength subjectOffset o with
  | none => simp
  | some matchResult =>
    by_cases hs : matchResult = k_SUCCESS
    · subst hs
      refine ⟨by simp, by simp, ?_, ?_⟩
      · intro hcount
        constructor
        · simp [hcount]
        · by_cases hz : P.sub (o.ovector 1) (o.ovector 0) = 0 <;> simp [hcount, hz]
      · intro status hst hne
        simp only [Option.some.injEq] at hst
        exact absurd hst.symm hne
    · have hne : (k_SUCCESS != matchResult) = true := by
        simp only [bne_iff_ne, ne_eq]
        exact fun e => hs e.symm
      refine ⟨by simp [hne], by simp [hne], ?_, ?_⟩
      · intro _
        simp [hne]
      · intro status hst _
        simp only [Option.some.injEq] at hst
        subst hst
        simp [hne]

/-- Instance of C10: on the prepared matcher the engine reports its
match-limit code; each overload returns the depth-limit status and hands the
caller's object back unchanged, the vectors keeping their two elements.  With
a successful outcome the single-result overloads return the status of the
presence-only overload. -/
theorem match_overloads_status_and_frame_witness :
    (prepared.match_pair pcre64 (5, 6) 4096 1 0
        { returnValue := -47, ovector := ovectorOf [7, 8, 7, 8, 7, 8], ovectorCount := 3 } =
      some (k_DEPTHLIMITFAILURE, (5, 6)) ∧
    prepared.match_StringRef pcre64 { d_begin := 77, d_length := 5 } 4096 1 0
        { returnValue := -47, ovector := ovectorOf [7, 8, 7, 8, 7, 8], ovectorCount := 3 } =
      some (k_DEPTHLIMITFAILURE, { d_begin := 77, d_length := 5 }) ∧
    prepared.match_vector_pair pcre64 [(5, 6), (1, 2)] 4096 1 0
        { returnValue := -47, ovector := ovectorOf [7, 8, 7, 8, 7, 8], ovectorCount := 3 } =
      some (k_DEPTHLIMITFAILURE, [(5, 6), (1, 2)]) ∧
    prepared.match_vector_StringRef pcre64
        [{ d_begin := 77, d_length := 5 }, { d_begin := 78, d_length := 4 }] 4096 1 0
        { returnValue := -47, ovector := ovectorOf [7, 8, 7, 8, 7, 8], ovectorCount := 3 } =
      some (k_DEPTHLIMITFAILURE,
        [{ d_begin := 77, d_length := 5 }, { d_begin := 78, d_length := 4 }])) ∧
    ((prepared.match_pair pcre64 (5, 6) 4096 1 0
        { returnValue := 3
          ovector := ovectorOf [0, 1, 0, 1, pcre64.UNSET, pcre64.UNSET]
          ovectorCount := 3 }).map Prod.fst =
      prepared.match_ pcre64 4096 1 0
        { returnValue := 3
          ovector := ovectorOf [0, 1, 0, 1, pcre64.UNSET, pcre64.UNSET]
          ovectorCount := 3 } ∧
    (prepared.match_StringRef pcre64 { d_begin := 77, d_length := 5 } 4096 1 0
        { returnValue := 3
          ovector := ovectorOf [0, 1, 0, 1, pcre64.UNSET, pcre64.UNSET]
          ovectorCount := 3 }).map Prod.fst =
      prepared.match_ pcre64 4096 1 0
        { returnValue := 3
          ovector := ovectorOf [0, 1, 0, 1, pcre64.UNSET, pcre64.UNSET]
          ovectorCount := 3 }) :=
  ⟨(match_overloads_status_and_frame pcre64 prepared 4096 1 0
      { returnValue := -47, ovector := ovectorOf [7, 8, 7, 8, 7, 8], ovectorCount := 3 }
      (5, 6) { d_begin := 77, d_length := 5 } [(5, 6), (1, 2)]
      [{ d_begin := 77, d_length := 5 }, { d_begin := 78, d_length := 4 }]).2.2.2
      k_DEPTHLIMITFAILURE (by decide) (by decide),
   (match_overloads_status_and_frame pcre64 prepared 4096 1 0
      { returnValue := 3
        ovector := ovectorOf [0, 1, 0, 1, pcre64.UNSET, pcre64.UNSET]
        ovectorCount := 3 }
      (5, 6) { d_begin := 77, d_length := 5 } [(5, 6), (1, 2)]
      [{ d_begin := 77, d_length := 5 }, { d_begin := 78, d_length := 4 }]).2.2.1
      (by decide)⟩

end bdlpcre
